import Mathlib

/-
  Shallow embedding of the alarm classification and ignore-rule evaluation
  engine of pagopa/qaops_slack_alarm_analyzer.

  Sources embedded:
    src/analyzer/config/time_constraint.py   (DateTimePeriod, TimeRange, TimeConstraint)
    src/analyzer/config/ignore_rule.py       (IgnoreRule)
    src/analyzer/config/ignore_rule_parser.py (IgnoreRuleParser)
    src/analyzer/config/oncall_config.py     (is_oncall_in_reperibilita)
    src/analyzer/alarm_type.py               (AlarmType, build_alarm_types)
    src/analyzer/alarm_analysis_result.py    (AlarmAnalysisResult, merge_analysis_results)
    src/analyzer/alarm_parser.py             (analyze_alarms)
    src/analyzer/utils/time_utils.py         (get_evening_window, get_oncall_window)

  Python machine model used throughout:
  - `datetime` values are records of integer fields; comparison is the
    field-lexicographic tuple comparison Python uses.
  - Unix timestamps are integers (seconds, or microseconds where the code
    keeps sub-second precision), never floats: every timestamp in the claims
    is exact in microseconds.
  - The Europe/Rome zone of the tz database is modelled by the EU DST rule it
    implements for the years at issue: UTC+2 between the last Sunday of March
    (02:00 standard time) and the last Sunday of October (03:00 daylight
    time), UTC+1 otherwise.
-/

namespace QaopsAnalyzer

/-! ## Calendar arithmetic

Days-from-civil / civil-from-days (the standard proleptic-Gregorian
conversion), used to model Python `datetime.weekday()`, `.timestamp()` and
the Europe/Rome zone. Day 0 is 1970-01-01. -/

def daysFromCivil (y m d : Int) : Int :=
  let yy := if m ≤ 2 then y - 1 else y
  let era := yy / 400
  let yoe := yy - era * 400
  let mp := (m + 9) % 12
  let doy := (153 * mp + 2) / 5 + d - 1
  let doe := yoe * 365 + yoe / 4 - yoe / 100 + doy
  era * 146097 + doe - 719468

def civilFromDays (z : Int) : Int × Int × Int :=
  let z' := z + 719468
  let era := z' / 146097
  let doe := z' - era * 146097
  let yoe := (doe - doe / 1460 + doe / 36524 - doe / 146096) / 365
  let y := yoe + era * 400
  let doy := doe - (365 * yoe + yoe / 4 - yoe / 100)
  let mp := (5 * doy + 2) / 153
  let d := doy - (153 * mp + 2) / 5 + 1
  let m := mp + (if mp < 10 then 3 else -9)
  (if m ≤ 2 then y + 1 else y, m, d)

/-- Python `datetime.weekday()`: Monday = 0 .. Sunday = 6 (1970-01-01 was a Thursday). -/
def weekdayOfDays (days : Int) : Int := (days + 3) % 7

/-! ## Naive `datetime` and `time` values -/

/-- Python naive `datetime.datetime`. -/
structure PyDateTime where
  year : Int
  month : Int
  day : Int
  hour : Int := 0
  minute : Int := 0
  second : Int := 0
  microsecond : Int := 0
deriving Repr, DecidableEq

/-- Python `datetime.time`. -/
structure PyTime where
  hour : Int
  minute : Int
  second : Int := 0
  microsecond : Int := 0
deriving Repr, DecidableEq

/-- Strict lexicographic comparison of equal-length integer lists: how Python
compares the field tuples of `datetime`/`time`/`date` values. -/
def lexLt : List Int → List Int → Bool
  | [], _ => false
  | _ :: _, [] => false
  | a :: as, b :: bs => a < b || (a == b && lexLt as bs)

def lexLe (xs ys : List Int) : Bool := lexLt xs ys || xs == ys

def PyDateTime.fields (t : PyDateTime) : List Int :=
  [t.year, t.month, t.day, t.hour, t.minute, t.second, t.microsecond]

/-- Python `datetime.date()` as its comparison tuple. -/
def PyDateTime.dateFields (t : PyDateTime) : List Int := [t.year, t.month, t.day]

def PyDateTime.lt (a b : PyDateTime) : Bool := lexLt a.fields b.fields
def PyDateTime.le (a b : PyDateTime) : Bool := lexLe a.fields b.fields

/-- Python `datetime.time()`. -/
def PyDateTime.timeOfDay (t : PyDateTime) : PyTime :=
  ⟨t.hour, t.minute, t.second, t.microsecond⟩

/-- Python `datetime.weekday()`. -/
def PyDateTime.weekday (t : PyDateTime) : Int :=
  weekdayOfDays (daysFromCivil t.year t.month t.day)

def PyTime.fields (t : PyTime) : List Int := [t.hour, t.minute, t.second, t.microsecond]

def PyTime.lt (a b : PyTime) : Bool := lexLt a.fields b.fields
def PyTime.le (a b : PyTime) : Bool := lexLe a.fields b.fields

/-! ## String helpers (kernel-computable models of the Python `str` methods) -/

/-- Splitting a character list at every occurrence of a separator
(Python `str.split(sep)`, which keeps empty pieces). -/
def splitChars (sep : Char) : List Char → List (List Char)
  | [] => [[]]
  | c :: cs =>
    match splitChars sep cs with
    | [] => [[c]]
    | r :: rs => if c == sep then [] :: r :: rs else (c :: r) :: rs

/-- Python `s.split(sep)` for a one-character separator. -/
def pySplit (s : String) (sep : Char) : List String :=
  (splitChars sep s.toList).map String.mk

/-- Value of a list of decimal digits (the digit strings are validated before use). -/
def digitsToInt (l : List Char) : Int :=
  l.foldl (fun acc c => acc * 10 + Int.ofNat (c.toNat - 48)) 0

/-- Python `str.strip()` on the whitespace the inputs can contain. -/
def pyStrip (s : String) : String :=
  let ws := fun c => c == ' ' || c == '\t' || c == '\n' || c == '\r'
  String.mk (((s.toList.dropWhile ws).reverse.dropWhile ws).reverse)

/-! ## `time_constraint.py` -/

/-- State of `DateTimePeriod` after construction: `start`/`end` already parsed
(`None` = open-ended), with the date-only flags the parser recorded.
The field `end` is a Lean keyword, so it is named `end_`. -/
structure DateTimePeriod where
  start : Option PyDateTime
  start_is_date_only : Bool := false
  end_ : Option PyDateTime
  end_is_date_only : Bool := false
deriving Repr, DecidableEq

/-- Embeds `DateTimePeriod.contains` (time_constraint.py lines 45-65). -/
def DateTimePeriod.contains (p : DateTimePeriod) (check_datetime : PyDateTime) : Bool :=
  let startOk :=
    match p.start with
    | none => true
    | some s =>
      if p.start_is_date_only then !lexLt check_datetime.dateFields s.dateFields
      else !check_datetime.lt s
  let endOk :=
    match p.end_ with
    | none => true
    | some e =>
      if p.end_is_date_only then !lexLt e.dateFields check_datetime.dateFields
      else !e.lt check_datetime
  startOk && endOk

/-- State of `TimeRange` after construction: both bounds parsed from "HH:MM"
(seconds and microseconds zero). -/
structure TimeRange where
  start : PyTime
  end_ : PyTime
deriving Repr, DecidableEq

/-- Embeds `TimeRange.contains` (time_constraint.py lines 102-110). -/
def TimeRange.contains (r : TimeRange) (check_time : PyTime) : Bool :=
  if r.start.le r.end_ then
    r.start.le check_time && check_time.le r.end_
  else
    r.start.le check_time || check_time.le r.end_

/-- State of `TimeConstraint` after construction: parsed periods, weekday numbers
(0=Monday..6=Sunday) and hour ranges. -/
structure TimeConstraint where
  periods : List DateTimePeriod := []
  weekdays : List Int := []
  hours : List TimeRange := []
deriving Repr, DecidableEq

/-- Embeds `TimeConstraint.is_empty` (time_constraint.py lines 189-191). -/
def TimeConstraint.is_empty (c : TimeConstraint) : Bool :=
  c.periods.isEmpty && c.weekdays.isEmpty && c.hours.isEmpty

/-- Embeds `TimeConstraint.matches` (time_constraint.py lines 193-230). -/
def TimeConstraint.matches (c : TimeConstraint) (check_datetime : PyDateTime) : Bool :=
  if c.is_empty then true
  else if !c.periods.isEmpty && !(c.periods.any fun p => p.contains check_datetime) then false
  else if !c.weekdays.isEmpty && !(c.weekdays.contains check_datetime.weekday) then false
  else if !c.hours.isEmpty && !(c.hours.any fun h => h.contains check_datetime.timeOfDay) then false
  else true

/-- Parsing of `TimeRange.__init__` / `_parse_time` ( strptime "%H:%M" ). -/
def parseHM (s : String) : Option PyTime :=
  match pySplit s ':' with
  | [h, m] =>
    if h.isEmpty || m.isEmpty || !(h.toList.all Char.isDigit) || !(m.toList.all Char.isDigit) then none
    else
      let hv := digitsToInt h.toList
      let mv := digitsToInt m.toList
      if hv ≤ 23 && mv ≤ 59 then some ⟨hv, mv, 0, 0⟩ else none
  | _ => none

/-- Constructor `TimeRange(start, end)` on "HH:MM" strings: `none` models the `ValueError` of `_parse_time`. -/
def mkTimeRange (start end_ : String) : Option TimeRange :=
  match parseHM start, parseHM end_ with
  | some s, some e => some ⟨s, e⟩
  | _, _ => none

/-! ## `ignore_rule.py` -/

/-- Embeds `IgnoreRule` (ignore_rule.py lines 10-38). `reason` keeps Python's
`Optional[str]`; `validity`/`exclusions` keep `Optional[TimeConstraint]`. -/
structure IgnoreRule where
  pattern : String
  path : String := "*"
  environments : List String := []
  reason : Option String := none
  validity : Option TimeConstraint := none
  exclusions : Option TimeConstraint := none
deriving Repr, DecidableEq

/-- Embeds `IgnoreRule.applies_to_environment` (ignore_rule.py lines 40-42). -/
def IgnoreRule.applies_to_environment (r : IgnoreRule) (environment : String) : Bool :=
  r.environments.isEmpty || r.environments.contains environment

/-- Embeds `IgnoreRule.is_valid_at` (ignore_rule.py lines 44-68): validity must match
(when configured and non-empty) and exclusions must not match (same proviso). -/
def IgnoreRule.is_valid_at (r : IgnoreRule) (check_datetime : PyDateTime) : Bool :=
  let validityOk :=
    match r.validity with
    | none => true
    | some v => if v.is_empty then true else v.matches check_datetime
  let exclusionsOk :=
    match r.exclusions with
    | none => true
    | some e => if e.is_empty then true else !e.matches check_datetime
  validityOk && exclusionsOk

/-- Python `str.replace("[#env#]", environment)`: replace every non-overlapping
occurrence of the 7-character token, left to right. Structural recursion on a
fuel argument (each step consumes at least one character, so fuel equal to
the list length is exact). -/
def replaceEnvTokenAux (environment : List Char) : Nat → List Char → List Char
  | _, [] => []
  | 0, l => l
  | fuel + 1, c :: cs =>
    if ("[#env#]".toList).isPrefixOf (c :: cs) then
      environment ++ replaceEnvTokenAux environment fuel (cs.drop 6)
    else
      c :: replaceEnvTokenAux environment fuel cs

/-- Embeds `IgnoreRule.expand_environment_placeholders` (ignore_rule.py lines 70-72). -/
def IgnoreRule.expand_environment_placeholders (r : IgnoreRule) (environment : String) : String :=
  String.mk (replaceEnvTokenAux environment.toList r.pattern.toList.length r.pattern.toList)

/-! ## The Slack message model

A message is a dictionary with a `text` field, a list of attachments (with
`title`, `fallback`, `text`) and a list of files (with `name`, `plain_text`);
`dict.get(key, '')` on a missing field yields `''`, so every field is a total
string defaulting to the empty string. -/

structure Attachment where
  title : String := ""
  fallback : String := ""
  text : String := ""
deriving Repr, DecidableEq

structure FileInfo where
  name : String := ""
  plain_text : String := ""
deriving Repr, DecidableEq

structure Message where
  text : String := ""
  attachments : List Attachment := []
  files : List FileInfo := []
deriving Repr, DecidableEq

/-- Embeds `attachment.get(field, ...)` with default `''` for the fields the parser reads. -/
def Attachment.get (a : Attachment) (field : String) : String :=
  if field == "title" then a.title
  else if field == "fallback" then a.fallback
  else if field == "text" then a.text
  else ""

/-- Embeds `file_info.get(field, ...)` with default `''` for the fields the parser reads. -/
def FileInfo.get (f : FileInfo) (field : String) : String :=
  if field == "name" then f.name
  else if field == "plain_text" then f.plain_text
  else ""

/-! ## `ignore_rule_parser.py`

The parser object is represented by its `ignore_rules` list. The caller's
`environment` argument is `Option String` (Python `str = None` default);
Python truthiness makes `None` and `""` both falsy. -/

/-- Python `pattern.lower() in text.lower()` substring test (an empty needle
is a substring of everything, as in Python). -/
def lowerContains (text pattern : String) : Bool :=
  let hay := text.toList.map Char.toLower
  let needle := pattern.toList.map Char.toLower
  (List.range (hay.length + 1)).any fun i => needle.isPrefixOf (hay.drop i)

/-- Embeds `IgnoreRuleParser._contains_pattern` (ignore_rule_parser.py lines 147-151). -/
def containsPattern (pattern text : String) : Bool :=
  if text.isEmpty || pattern.isEmpty then false
  else lowerContains text pattern

/-- Embeds `IgnoreRuleParser._check_all_fields` (ignore_rule_parser.py lines 65-85). -/
def checkAllFields (pattern : String) (message : Message) : Bool :=
  containsPattern pattern message.text
  || message.attachments.any (fun a =>
       ["title", "fallback", "text"].any fun field => containsPattern pattern (a.get field))
  || message.files.any (fun f =>
       ["name", "plain_text"].any fun field => containsPattern pattern (f.get field))

/-- Regex `SEND_ALARM_PATTERN` matched at the head of a character list
( regex `#\d+: ALARM: "([^\x22]+)" in .+` ): returns the capture group.
`\d+` and `[^"]+` are greedy runs whose follow-set excludes their own
characters, so maximal munch is exact; `.` excludes a newline. -/
def sendAlarmMatchHead (cs : List Char) : Option String :=
  match cs with
  | '#' :: rest =>
    let ds := rest.takeWhile Char.isDigit
    if ds.isEmpty then none
    else
      let afterDigits := rest.drop ds.length
      if (": ALARM: \"".toList).isPrefixOf afterDigits then
        let afterQuote := afterDigits.drop 10
        let nameChars := afterQuote.takeWhile (fun c => c ≠ '"')
        if nameChars.isEmpty then none
        else
          match afterQuote.drop nameChars.length with
          | '"' :: ' ' :: 'i' :: 'n' :: ' ' :: tail =>
            match tail with
            | c :: _ => if c == '\n' then none else some (String.mk nameChars)
            | [] => none
          | _ => none
      else none
  | _ => none

/-- Embeds `IgnoreRuleParser._extract_alarm_name_from_title` (lines 133-145):
`re.search` takes the leftmost position where the pattern matches. -/
def extractAlarmNameFromTitle (title : String) : String :=
  if title.isEmpty then ""
  else
    let cs := title.toList
    match (List.range (cs.length + 1)).findSome? (fun i => sendAlarmMatchHead (cs.drop i)) with
    | some name => name
    | none => ""

/-- Embeds `IgnoreRuleParser._extract_values_by_path` (lines 95-131). -/
def extractValuesByPath (path : String) (message : Message) : List String :=
  let path_parts := pySplit path '.' 
  if path == "text" then [message.text]
  else if path_parts.head? == some "attachments" then
    if path_parts.length == 3 && path_parts.getD 1 "" == "title"
        && path_parts.getD 2 "" == "alarm_name" then
      message.attachments.filterMap fun a =>
        let alarm_name := extractAlarmNameFromTitle a.title
        if alarm_name.isEmpty then none else some alarm_name
    else if path_parts.length == 2 then
      message.attachments.map fun a => a.get (path_parts.getD 1 "")
    else []
  else if path_parts.head? == some "files" then
    if path_parts.length == 2 then
      message.files.map fun f => f.get (path_parts.getD 1 "")
    else []
  else []

/-- Embeds `IgnoreRuleParser._check_specific_path` (lines 87-93). -/
def checkSpecificPath (pattern path : String) (message : Message) : Bool :=
  (extractValuesByPath path message).any fun value => containsPattern pattern value

/-- Python truthiness of the `environment: str = None` argument. -/
def envTruthy : Option String → Bool
  | none => false
  | some e => !e.isEmpty

/-- Embeds `IgnoreRuleParser._rule_matches_message` (lines 49-63). -/
def ruleMatchesMessage (rule : IgnoreRule) (message : Message) (environment : Option String) : Bool :=
  if envTruthy environment && !(rule.applies_to_environment (environment.getD "")) then false
  else
    let pattern :=
      if envTruthy environment then rule.expand_environment_placeholders (environment.getD "")
      else rule.pattern
    if rule.path == "*" then checkAllFields pattern message
    else checkSpecificPath pattern rule.path message

/-- Embeds `IgnoreRuleParser.should_ignore_message` (lines 33-47). Note: as in the
source, it takes no timestamp and performs no time-validity check. -/
def shouldIgnoreMessage (ignore_rules : List IgnoreRule) (message : Message)
    (environment : Option String) : Bool :=
  ignore_rules.any fun rule => ruleMatchesMessage rule message environment

/-- The fallback reason text of `get_ignore_reason` (apostrophes written `\x27`). -/
def defaultReasonText (rule : IgnoreRule) : String :=
  if rule.path == "*" then
    "Pattern \x27" ++ rule.pattern ++ "\x27 found (wildcard search)"
  else
    "Pattern \x27" ++ rule.pattern ++ "\x27 found in " ++ rule.path

/-- Embeds `IgnoreRuleParser.get_ignore_reason` (lines 153-164). Note: as in the
source, it takes only the message — no environment and no timestamp — and
reports the first rule that matches with `environment=None`. -/
def getIgnoreReason (ignore_rules : List IgnoreRule) (message : Message) : String :=
  match ignore_rules.find? (fun rule => ruleMatchesMessage rule message none) with
  | some rule =>
    match rule.reason with
    | some reasonText => if reasonText.isEmpty then defaultReasonText rule else reasonText
    | none => defaultReasonText rule
  | none => "Unknown reason"

/-! ## Compiled regular expressions, `alarm_type.py`

A compiled pattern (`re.compile(raw, re.IGNORECASE)`) is modelled by its
source text together with its matching function: `matchAt s i` states that
the regex matches starting at character position `i` of `s` (Python
`re.match` at that position). `re.search` is the leftmost such position.
`build_alarm_types` composes patterns only by the negative lookahead
`"^(?!" + P + ")"`, whose semantics in terms of `P` is: a (zero-width) match
at position 0 exactly when `P` does not match at position 0 (`^` anchors to
the start of the string, no MULTILINE). -/

structure RegexPattern where
  raw : String
  matchAt : String → Nat → Bool

/-- Python `bool(compiled.search(s))`: some position of `s` (including the
position at its end) starts a match. -/
def searchPattern (p : RegexPattern) (s : String) : Bool :=
  (List.range (s.length + 1)).any fun i => p.matchAt s i

/-- Composition `"^(?!" + P + ")"` used for the normal alarm pattern
(alarm_type.py lines 107-111). -/
def regexAnchorNegLookahead (p : RegexPattern) : RegexPattern :=
  { raw := "^(?!" ++ p.raw ++ ")"
    matchAt := fun s i => i == 0 && !(p.matchAt s 0) }

/-- Pattern `".*"` used when no on-call config exists (alarm_type.py line 114). -/
def regexDotStar : RegexPattern :=
  { raw := ".*"
    matchAt := fun s i => decide (i ≤ s.length) }

/-- Semantics of a regex that is a literal string, compiled with
`re.IGNORECASE`: it matches at `i` when it is a case-insensitive prefix of
the text from position `i` on (used to instantiate configured patterns). -/
def litPattern (pat : String) : RegexPattern :=
  { raw := pat
    matchAt := fun s i => (pat.toList.map Char.toLower).isPrefixOf ((s.toList.map Char.toLower).drop i) }

/-- Embeds `OnCallConfiguration` (oncall_config.py lines 50-63): channel id
plus the configured alarm-name pattern. -/
structure OnCallConfiguration where
  channel_id : String
  pattern : RegexPattern

/-- Embeds `AlarmType` (alarm_type.py lines 12-56). `_compiled_pattern` is
`None` exactly when the pattern text is empty (`re.compile(p) if p else None`),
so the compiled pattern is kept with its `raw` text. -/
structure AlarmType where
  product : String
  environment : String
  category : String
  channel_id : String
  pattern : RegexPattern
  description : String

/-- Embeds `AlarmType.matches_alarm_name` (alarm_type.py lines 36-48). -/
def AlarmType.matches_alarm_name (a : AlarmType) (alarm_name : String) : Bool :=
  if alarm_name.isEmpty || a.pattern.raw.isEmpty then false
  else searchPattern a.pattern alarm_name

/-- Embeds `AlarmType.is_oncall` (alarm_type.py lines 50-52). -/
def AlarmType.is_oncall (a : AlarmType) : Bool := a.category == "oncall"

/-- Slice of `ProductConfig` (product_config.py) that `build_alarm_types`
reads: environment name to Slack channel id, ignore rules, on-call config. -/
structure ProductConfig where
  name : String
  environments : List (String × String)
  ignore_rules : List IgnoreRule
  oncall_config : Option OnCallConfiguration

/-- Embeds `ProductConfig.get_slack_channel_id` (product_config.py lines 24-27). -/
def ProductConfig.get_slack_channel_id (pc : ProductConfig) (env_name : String) : Option String :=
  (pc.environments.find? (fun e => e.1 == env_name)).map (fun e => e.2)

/-- Embeds `build_alarm_types` (alarm_type.py lines 82-141). -/
def build_alarm_types (product_config : ProductConfig) (product_name environment : String) :
    List AlarmType :=
  let channel_id := (product_config.get_slack_channel_id environment).getD ""
  if channel_id.isEmpty then []
  else
    let normal_pattern :=
      match product_config.oncall_config with
      | some oc => regexAnchorNegLookahead oc.pattern
      | none => regexDotStar
    let normal_alarm : AlarmType :=
      { product := product_name
        environment := environment
        category := "normal"
        channel_id := channel_id
        pattern := normal_pattern
        description := product_name ++ " " ++ environment ++ " normal alarms" }
    match environment == "prod", product_config.oncall_config with
    | true, some oc =>
      [normal_alarm,
       { product := product_name
         environment := environment
         category := "oncall"
         channel_id := oc.channel_id
         pattern := oc.pattern
         description := product_name ++ " " ++ environment ++ " oncall alarms" }]
    | _, _ => [normal_alarm]

/-! ## The Europe/Rome zone and `oncall_config.py`

Europe/Rome follows the EU rule the tz database records for the relevant
years: daylight saving from the last Sunday of March, 01:00 UTC, to the last
Sunday of October, 01:00 UTC; offset UTC+2 during DST, UTC+1 otherwise. -/

/-- Day of month of the last Sunday of a 31-day month (March or October). -/
def lastSunday31 (y m : Int) : Int :=
  31 - (weekdayOfDays (daysFromCivil y m 31) + 1) % 7

/-- Whether an absolute instant (Unix seconds) falls in Europe/Rome DST:
within [last Sunday of March 01:00 UTC, last Sunday of October 01:00 UTC). -/
def romeIsDst (t : Int) : Bool :=
  let y := (civilFromDays (t / 86400)).1
  let dstStart := daysFromCivil y 3 (lastSunday31 y 3) * 86400 + 3600
  let dstEnd := daysFromCivil y 10 (lastSunday31 y 10) * 86400 + 3600
  dstStart ≤ t && t < dstEnd

/-- UTC offset (seconds) of Europe/Rome as of an absolute instant. -/
def romeUtcOffset (t : Int) : Int := if romeIsDst t then 7200 else 3600

/-- Seconds elapsed since local midnight in Rome at an absolute instant. -/
def romeLocalSecondsOfDay (t : Int) : Int := (t + romeUtcOffset t) % 86400

/-- Local Rome wall-clock hour at an absolute instant
(`datetime.fromtimestamp(t, tz=ITALY_TIMEZONE).hour`). -/
def romeLocalHour (t : Int) : Int := romeLocalSecondsOfDay t / 3600

/-- Embeds `is_oncall_in_reperibilita` (oncall_config.py lines 16-47): the
alarm timestamp, naive or aware, denotes an absolute instant (Unix seconds),
converted to the Italy timezone; `None` (`if not alarm_timestamp`) gives
`False`; outside office hours means local hour < 9 or >= 18. -/
def is_oncall_in_reperibilita : Option Int → Bool
  | none => false
  | some t =>
    let hour := romeLocalHour t
    hour < 9 || hour ≥ 18

/-! ## `alarm_analysis_result.py` and `alarm_parser.py` -/

/-- Normalized alarm record the Slack parser extracts from a message
(`{name, id, timestamp, ...}`); the timestamp is an absolute instant in Unix
seconds, `none` when the message has no timestamp. -/
structure AlarmInfo where
  name : String := ""
  id : String := ""
  timestamp : Option Int := none
deriving Repr, DecidableEq

/-- Embeds `AlarmAnalysisResult` (alarm_analysis_result.py lines 10-32).
`alarm_stats` is an insertion-ordered association list (a Python dict).
Each entry of `ignored_messages` is represented by the ignored source message:
the detail dict `create_ignored_message_info` would build calls
`IgnoreRuleParser.get_matched_rule`, a method the source does not define
(see the C1/C3 theorems), so only membership and order are modelled. -/
structure AlarmAnalysisResult where
  alarm_stats : List (String × List AlarmInfo) := []
  total_alarms : Int := 0
  analyzable_alarms : Int := 0
  ignored_alarms : Int := 0
  ignored_messages : List Message := []
  oncall_total : Int := 0
  oncall_in_reperibilita : Int := 0
  alarm_type : Option AlarmType := none

/-- One step of the stats merge of `merge_analysis_results` (lines 70-73):
`if name not in merged: merged[name] = []` then `extend`. -/
def statsExtend (acc : List (String × List AlarmInfo)) (kv : String × List AlarmInfo) :
    List (String × List AlarmInfo) :=
  if acc.any (fun e => e.1 == kv.1) then
    acc.map fun e => if e.1 == kv.1 then (e.1, e.2 ++ kv.2) else e
  else acc ++ [kv]

/-- One iteration of the loop of `merge_analysis_results` (lines 68-83). -/
def mergeStep (merged result : AlarmAnalysisResult) : AlarmAnalysisResult :=
  { alarm_stats := result.alarm_stats.foldl statsExtend merged.alarm_stats
    total_alarms := merged.total_alarms + result.total_alarms
    analyzable_alarms := merged.analyzable_alarms + result.analyzable_alarms
    ignored_alarms := merged.ignored_alarms + result.ignored_alarms
    ignored_messages := merged.ignored_messages ++ result.ignored_messages
    oncall_total := merged.oncall_total + result.oncall_total
    oncall_in_reperibilita := merged.oncall_in_reperibilita + result.oncall_in_reperibilita
    alarm_type := merged.alarm_type }

/-- Embeds `merge_analysis_results` (alarm_analysis_result.py lines 54-85). -/
def merge_analysis_results (results : List AlarmAnalysisResult) : AlarmAnalysisResult :=
  results.foldl mergeStep {}

/-- One append into the `defaultdict(list)` `alarm_stats` of `analyze_alarms`
(`alarm_stats[alarm_name].append(alarm_info)`), preserving key insertion order. -/
def statsAppend (stats : List (String × List AlarmInfo)) (name : String) (info : AlarmInfo) :
    List (String × List AlarmInfo) :=
  if stats.any (fun e => e.1 == name) then
    stats.map fun e => if e.1 == name then (e.1, e.2 ++ [info]) else e
  else stats ++ [(name, [info])]

/-- Loop state of `analyze_alarms` (alarm_parser.py lines 29-33). -/
structure AnalyzeState where
  alarm_stats : List (String × List AlarmInfo) := []
  total_alarms : Int := 0
  ignored_messages : List Message := []
  oncall_total : Int := 0
  oncall_in_reperibilita : Int := 0

/-- One iteration of the message loop of `analyze_alarms` (alarm_parser.py
lines 47-75). The Slack parser variant is an external collaborator (a
`(product, environment)`-selected `extract_alarm_info`), so it is a
parameter. The source's call `should_ignore_message(message, environment,
alarm_timestamp)` passes a timestamp argument the method does not accept
(see the C1 theorem); the method is applied as it is defined. -/
def analyzeStep (extract_alarm_info : Message → Option AlarmInfo) (alarm_type : AlarmType)
    (ignore_rules : List IgnoreRule) (st : AnalyzeState) (message : Message) : AnalyzeState :=
  match extract_alarm_info message with
  | none => st
  | some alarm_info =>
    if !(alarm_type.matches_alarm_name alarm_info.name) then st
    else
      let st := { st with total_alarms := st.total_alarms + 1 }
      let st :=
        if alarm_type.is_oncall then
          { st with
            oncall_total := st.oncall_total + 1
            oncall_in_reperibilita :=
              st.oncall_in_reperibilita +
                (if alarm_info.timestamp.isSome
                    && is_oncall_in_reperibilita alarm_info.timestamp then 1 else 0) }
        else st
      if shouldIgnoreMessage ignore_rules message (some alarm_type.environment) then
        { st with ignored_messages := st.ignored_messages ++ [message] }
      else
        { st with alarm_stats := statsAppend st.alarm_stats alarm_info.name alarm_info }

/-- Embeds `analyze_alarms` (alarm_parser.py lines 17-94). -/
def analyze_alarms (messages : List Message) (extract_alarm_info : Message → Option AlarmInfo)
    (alarm_type : AlarmType) (ignore_rules : List IgnoreRule) : AlarmAnalysisResult :=
  let final := messages.foldl (analyzeStep extract_alarm_info alarm_type ignore_rules) {}
  { alarm_stats := final.alarm_stats
    total_alarms := final.total_alarms
    analyzable_alarms := final.total_alarms - final.ignored_messages.length
    ignored_alarms := final.ignored_messages.length
    ignored_messages := final.ignored_messages
    oncall_total := final.oncall_total
    oncall_in_reperibilita := final.oncall_in_reperibilita
    alarm_type := some alarm_type }

/-! ## `time_utils.py`

Timestamps are kept in microseconds so that the `.999999` endpoint is exact.
pytz semantics embedded: `ROME_TZ.localize(naive_midnight)` fixes the UTC
offset that is in force at that local midnight, and the subsequent
`.replace(hour=..., ...)` keeps that (possibly stale) fixed offset; the final
`astimezone(pytz.utc).timestamp()` is wall-clock seconds minus that offset. -/

/-- Whether Europe/Rome DST is in force at the local midnight opening civil
day `days`: after the last-Sunday-of-March midnight (the clocks change at
02:00) and up to the last-Sunday-of-October midnight (they change back at
03:00). -/
def romeDstAtLocalMidnight (days : Int) : Bool :=
  let y := (civilFromDays days).1
  daysFromCivil y 3 (lastSunday31 y 3) < days && days ≤ daysFromCivil y 10 (lastSunday31 y 10)

/-- UTC offset (seconds) `ROME_TZ.localize` attaches to a naive local midnight. -/
def romeOffsetAtLocalMidnight (days : Int) : Int :=
  if romeDstAtLocalMidnight days then 7200 else 3600

/-- Epoch microseconds of `ROME_TZ.localize(midnight of day `days`).replace(...)`
moved to `secondsOfDay` (+ `micros`) on the same day. -/
def localizedReplaceEpochMicros (days secondsOfDay micros : Int) : Int :=
  (days * 86400 + secondsOfDay - romeOffsetAtLocalMidnight days) * 1000000 + micros

/-- Leap year test of the Gregorian calendar (strptime date validation). -/
def isLeapYear (y : Int) : Bool :=
  (y % 4 == 0 && y % 100 != 0) || y % 400 == 0

def daysInMonth (y m : Int) : Int :=
  if m == 1 || m == 3 || m == 5 || m == 7 || m == 8 || m == 10 || m == 12 then 31
  else if m == 4 || m == 6 || m == 9 || m == 11 then 30
  else if isLeapYear y then 29 else 28

/-- Parses `datetime.strptime(s, "%d-%m-%y")` to (year, month, day):
one or two digits per field, `%y` mapping 00-68 to 2000-2068 and 69-99 to
1969-1999, with calendar validation; `none` models the `ValueError`. -/
def parseDDMMYY (s : String) : Option (Int × Int × Int) :=
  match pySplit s '-' with
  | [d, m, y] =>
    if d.isEmpty || m.isEmpty || y.isEmpty
        || d.length > 2 || m.length > 2 || y.length > 2
        || !(d.toList.all Char.isDigit) || !(m.toList.all Char.isDigit)
        || !(y.toList.all Char.isDigit) then none
    else
      let dv := digitsToInt d.toList
      let mv := digitsToInt m.toList
      let yv := digitsToInt y.toList
      let year := if yv ≤ 68 then 2000 + yv else 1900 + yv
      if 1 ≤ mv && mv ≤ 12 && 1 ≤ dv && dv ≤ daysInMonth year mv then
        some (year, mv, dv)
      else none
  | _ => none

/-- Python `date_str.split(':', 1)`: the text before the first colon and the
text after it. -/
def splitOnceColon (s : String) : String × String :=
  let l := s.toList
  (String.mk (l.takeWhile fun c => c ≠ ':'),
   String.mk ((l.dropWhile fun c => c ≠ ':').drop 1))

/-- Embeds `get_evening_window` (time_utils.py lines 6-52): 18:00 local Rome
time of the day before the (first) date through 18:00 local Rome time of the
last date, as epoch microseconds; `none` models the raised `ValueError`s. -/
def get_evening_window (date_str : String) : Option (Int × Int) :=
  if date_str.toList.contains ':' then
    let parts := splitOnceColon date_str
    match parseDDMMYY (pyStrip parts.1), parseDDMMYY (pyStrip parts.2) with
    | some (sy, sm, sd), some (ey, em, ed) =>
      let startDays := daysFromCivil sy sm sd
      let endDays := daysFromCivil ey em ed
      if startDays > endDays then none
      else
        some (localizedReplaceEpochMicros (startDays - 1) 64800 0,
              localizedReplaceEpochMicros endDays 64800 0)
    | _, _ => none
  else
    match parseDDMMYY date_str with
    | some (ty, tm, td) =>
      let targetDays := daysFromCivil ty tm td
      some (localizedReplaceEpochMicros (targetDays - 1) 64800 0,
            localizedReplaceEpochMicros targetDays 64800 0)
    | none => none

/-- Embeds `get_oncall_window` (time_utils.py lines 54-102): 00:00:00.000000
through 23:59:59.999999 local Rome time of the date(s), as epoch microseconds. -/
def get_oncall_window (date_str : String) : Option (Int × Int) :=
  if date_str.toList.contains ':' then
    let parts := splitOnceColon date_str
    match parseDDMMYY (pyStrip parts.1), parseDDMMYY (pyStrip parts.2) with
    | some (sy, sm, sd), some (ey, em, ed) =>
      let startDays := daysFromCivil sy sm sd
      let endDays := daysFromCivil ey em ed
      if startDays > endDays then none
      else
        some (localizedReplaceEpochMicros startDays 0 0,
              localizedReplaceEpochMicros endDays 86399 999999)
    | _, _ => none
  else
    match parseDDMMYY date_str with
    | some (ty, tm, td) =>
      let targetDays := daysFromCivil ty tm td
      some (localizedReplaceEpochMicros targetDays 0 0,
            localizedReplaceEpochMicros targetDays 86399 999999)
    | none => none

/-! ## Per-instant local-to-UTC conversion (the specification's wording)

The spec describes both windows as local Rome wall-clock instants "converted
to absolute UTC timestamps using the zone's offset as of each instant". The
converter below follows that wording: the offset is chosen from the wall
clock itself (DST from 03:00 on the last Sunday of March to 02:00 on the
last Sunday of October, the ambiguous hour resolving to standard time). -/

def romeDstAtWall (y m d secondsOfDay : Int) : Bool :=
  let days := daysFromCivil y m d
  let marDays := daysFromCivil y 3 (lastSunday31 y 3)
  let octDays := daysFromCivil y 10 (lastSunday31 y 10)
  (marDays < days || (marDays == days && secondsOfDay ≥ 10800))
    && (days < octDays || (days == octDays && secondsOfDay < 7200))

/-- Absolute epoch microseconds of a Rome wall-clock datetime, applying the
zone's offset as of that instant. -/
def utcEpochMicrosOfRomeWall (y m d hh mm ss us : Int) : Int :=
  let sod := hh * 3600 + mm * 60 + ss
  let off := if romeDstAtWall y m d sod then 7200 else 3600
  (daysFromCivil y m d * 86400 + sod - off) * 1000000 + us

/-- Absolute epoch seconds of a Rome wall-clock datetime (offset as of the
instant), for building concrete on-call test instants. -/
def utcEpochSecsOfRomeWall (y m d hh mm ss : Int) : Int :=
  let sod := hh * 3600 + mm * 60 + ss
  let off := if romeDstAtWall y m d sod then 7200 else 3600
  daysFromCivil y m d * 86400 + sod - off

/-- Concrete inputs demonstrating the C1 divergence: a rule whose validity
constraint is the year 2020 only. -/
def c1Rule : IgnoreRule :=
  { pattern := "ERR"
    path := "text"
    reason := some "noisy vendor alert"
    validity := some
      { periods := [⟨some ⟨2020, 1, 1, 0, 0, 0, 0⟩, true, some ⟨2020, 12, 31, 0, 0, 0, 0⟩, true⟩] } }

def c1Message : Message := { text := "ERR boom" }

def c1Timestamp : PyDateTime := ⟨2025, 6, 15, 12, 0, 0, 0⟩

/-- Concrete inputs demonstrating the C3 divergence: an earlier rule
restricted to the `dev` environment with reason "A", a later unrestricted
rule with reason "B", evaluated for environment `prod`. -/
def c3RuleDev : IgnoreRule :=
  { pattern := "ERR", path := "*", environments := ["dev"], reason := some "A" }

def c3RuleAll : IgnoreRule :=
  { pattern := "ERR", path := "*", reason := some "B" }

def c3Message : Message := { text := "ERR spike" }

def c3Timestamp : PyDateTime := ⟨2025, 6, 15, 12, 0, 0, 0⟩

/-- Concrete product configuration for C2: on-call pattern the literal
regex "foo" (unanchored), prod channel configured. -/
def c2Config : ProductConfig :=
  { name := "SEND"
    environments := [("prod", "C-PROD")]
    ignore_rules := []
    oncall_config := some { channel_id := "C-ONCALL", pattern := litPattern "foo" } }

/-- The five integer counter fields of an `AlarmAnalysisResult`, as one
tuple (componentwise addition). -/
def mergeCounters (r : AlarmAnalysisResult) : Int × Int × Int × Int × Int :=
  (r.total_alarms, r.analyzable_alarms, r.ignored_alarms, r.oncall_total,
   r.oncall_in_reperibilita)

/-! ## Theorems -/

section Claims

/-- Helper: a strict lexicographic order and the reflexive one are mutually
exclusive on integer lists. -/
lemma lexLt_true_lexLe_false {xs ys : List Int} (h : lexLt xs ys = true) :
    lexLe ys xs = false := by
  induction xs generalizing ys with
  | nil => cases ys <;> simp [lexLt] at h
  | cons a as ih =>
    cases ys with
    | nil => simp [lexLt] at h
    | cons b bs =>
      simp only [lexLt, Bool.or_eq_true, Bool.and_eq_true, beq_iff_eq,
        decide_eq_true_eq] at h
      simp only [lexLe, lexLt, Bool.or_eq_false_iff, Bool.and_eq_false_iff,
        beq_eq_false_iff_ne, ne_eq, decide_eq_false_iff_not, not_lt, List.cons.injEq,
        not_and]
      rcases h with h | ⟨hab, h⟩
      · exact ⟨by omega, fun he => absurd he.symm (by omega)⟩
      · have hih := ih h
        simp only [lexLe, Bool.or_eq_false_iff, beq_eq_false_iff_ne, ne_eq] at hih
        exact ⟨⟨by omega, Or.inr hih.1⟩, fun _ hbs => hih.2 (by rw [hbs])⟩

/-- Helper: `PyTime` order duality, matching Python `time` comparison. -/
lemma pyTime_lt_le (a b : PyTime) (h : PyTime.lt a b = true) : PyTime.le b a = false :=
  lexLt_true_lexLe_false h

/-- C4: an empty `TimeConstraint` matches every datetime, and in general
`matches` is the conjunction, over the configured constraint kinds, of the
disjunction over that kind's entries (AND across kinds, OR within a kind);
an unconfigured kind is vacuously satisfied. -/
theorem timeConstraint_matches_iff_and_of_ors (c : TimeConstraint) (t : PyDateTime) :
    (c.is_empty = true → c.matches t = true) ∧
    c.matches t =
      ((c.periods.isEmpty || c.periods.any fun p => p.contains t)
        && (c.weekdays.isEmpty || c.weekdays.contains t.weekday)
        && (c.hours.isEmpty || c.hours.any fun h => h.contains t.timeOfDay)) := by
  constructor
  · intro h
    simp [TimeConstraint.matches, h]
  · unfold TimeConstraint.matches TimeConstraint.is_empty
    cases hp : c.periods.isEmpty <;> cases hw : c.weekdays.isEmpty <;>
      cases hh : c.hours.isEmpty <;>
      cases hap : (c.periods.any fun p => p.contains t) <;>
      cases haw : c.weekdays.contains t.weekday <;>
      cases hah : (c.hours.any fun h => h.contains t.timeOfDay) <;>
      simp [hp, hw, hh, hap, haw, hah]

/-- C5: a `TimeRange` whose start is strictly after its end wraps past
midnight: it contains `t` exactly when `start ≤ t` or `t ≤ end`; in
particular 22:00-02:00 contains 23:30 and 01:00 but not 12:00. -/
theorem timeRange_wraps_past_midnight :
    (∀ (r : TimeRange) (t : PyTime), PyTime.lt r.end_ r.start = true →
       r.contains t = (r.start.le t || t.le r.end_))
    ∧ (mkTimeRange "22:00" "02:00").map (fun r => r.contains ⟨23, 30, 0, 0⟩) = some true
    ∧ (mkTimeRange "22:00" "02:00").map (fun r => r.contains ⟨1, 0, 0, 0⟩) = some true
    ∧ (mkTimeRange "22:00" "02:00").map (fun r => r.contains ⟨12, 0, 0, 0⟩) = some false := by
  refine ⟨?_, by decide, by decide, by decide⟩
  intro r t h
  have hle : r.start.le r.end_ = false := pyTime_lt_le r.end_ r.start h
  simp [TimeRange.contains, hle]

/-- Helper: an empty pattern is never contained in any text. -/
lemma containsPattern_empty_pattern (text : String) : containsPattern "" text = false := by
  simp [containsPattern, show ("" : String).isEmpty = true from rfl]

/-- Helper: expanding the environment placeholder in an empty pattern yields
the empty pattern. -/
lemma expand_empty_pattern (r : IgnoreRule) (e : String) (h : r.pattern = "") :
    r.expand_environment_placeholders e = "" := by
  simp [IgnoreRule.expand_environment_placeholders, h, replaceEnvTokenAux]

/-- C10: `_contains_pattern` is false whenever the pattern or the examined
text is empty, and a rule set whose rules all have the empty pattern never
ignores any message, in any environment. -/
theorem empty_pattern_never_ignores :
    (∀ pattern text : String, pattern = "" ∨ text = "" →
       containsPattern pattern text = false)
    ∧ (∀ (ignore_rules : List IgnoreRule) (message : Message) (environment : Option String),
       (∀ r ∈ ignore_rules, r.pattern = "") →
       shouldIgnoreMessage ignore_rules message environment = false) := by
  constructor
  · intro pattern text h
    rcases h with h | h <;> subst h <;>
      simp [containsPattern, show ("" : String).isEmpty = true from rfl]
  · intro rules message environment h
    rw [shouldIgnoreMessage, List.any_eq_false]
    intro r hr
    have hp := h r hr
    suffices hs : ruleMatchesMessage r message environment = false by simp [hs]
    unfold ruleMatchesMessage
    split
    · rfl
    · have hpat : (if envTruthy environment then
          r.expand_environment_placeholders (environment.getD "") else r.pattern) = "" := by
        split
        · exact expand_empty_pattern r _ hp
        · exact hp
      rw [hpat]
      split
      · simp [checkAllFields, containsPattern_empty_pattern]
      · simp [checkSpecificPath, containsPattern_empty_pattern]

/-- Witness for C10 at a concrete rule list, message and environment. -/
theorem empty_pattern_never_ignores_witness :
    shouldIgnoreMessage [{ pattern := "" }, { pattern := "", path := "text" }]
      { text := "ALARM storm", attachments := [{ title := "t" }], files := [] }
      (some "prod") = false :=
  empty_pattern_never_ignores.2
    [{ pattern := "" }, { pattern := "", path := "text" }]
    { text := "ALARM storm", attachments := [{ title := "t" }], files := [] }
    (some "prod") (by intro r hr; fin_cases hr <;> rfl)

/-- C1 (code bug): `should_ignore_message` decides to ignore on the
structural match alone — it takes no timestamp and never consults
`is_valid_at` — so a rule that is time-invalid at the alarm's timestamp
(validity restricted to 2020, alarm in 2025) still causes ignoring,
contradicting the claim that both conditions must hold. -/
theorem shouldIgnore_skips_time_validity :
    shouldIgnoreMessage [c1Rule] c1Message (some "prod") = true
    ∧ c1Rule.is_valid_at c1Timestamp = false := by
  constructor
  · decide
  · decide

/-- C3 (code bug): `get_ignore_reason` takes neither the environment nor the
timestamp and re-matches with `environment=None`, so it reports the reason
of the `dev`-only first rule ("A") although, for environment `prod`, the
first rule satisfying both the structural match and the time-validity check
is the second one (reason "B"). -/
theorem getIgnoreReason_skips_environment_and_time :
    getIgnoreReason [c3RuleDev, c3RuleAll] c3Message = "A"
    ∧ shouldIgnoreMessage [c3RuleDev, c3RuleAll] c3Message (some "prod") = true
    ∧ (([c3RuleDev, c3RuleAll].find? fun r =>
          ruleMatchesMessage r c3Message (some "prod") && r.is_valid_at c3Timestamp).map
        (fun r => r.reason)) = some (some "B") := by
  refine ⟨by decide, by decide, by decide⟩

/-- C8: the reperibilità check is the half-open local window [09:00, 18:00)
in Rome time — the alarm is inside office hours exactly when its local
second-of-day lies in [9h, 18h) — and at the boundaries: local 08:59 is
outside (true), 09:00 inside (false), 17:59 inside (false), 18:00 outside
(true); the summer check confirms the DST-aware conversion. -/
theorem oncall_reperibilita_half_open :
    (∀ t : Int, is_oncall_in_reperibilita (some t) = false ↔
       9 * 3600 ≤ romeLocalSecondsOfDay t ∧ romeLocalSecondsOfDay t < 18 * 3600)
    ∧ is_oncall_in_reperibilita (some (utcEpochSecsOfRomeWall 2025 1 15 8 59 0)) = true
    ∧ is_oncall_in_reperibilita (some (utcEpochSecsOfRomeWall 2025 1 15 9 0 0)) = false
    ∧ is_oncall_in_reperibilita (some (utcEpochSecsOfRomeWall 2025 1 15 17 59 0)) = false
    ∧ is_oncall_in_reperibilita (some (utcEpochSecsOfRomeWall 2025 1 15 18 0 0)) = true
    ∧ is_oncall_in_reperibilita (some (utcEpochSecsOfRomeWall 2025 7 15 8 59 0)) = true := by
  refine ⟨?_, by decide, by decide, by decide, by decide, by decide⟩
  intro t
  unfold is_oncall_in_reperibilita romeLocalHour
  set sod := romeLocalSecondsOfDay t with hsod
  have hrange : 0 ≤ sod ∧ sod < 86400 := by
    rw [hsod]
    unfold romeLocalSecondsOfDay
    constructor
    · exact Int.emod_nonneg _ (by norm_num)
    · exact Int.emod_lt_of_pos _ (by norm_num)
  simp only [Bool.or_eq_false_iff, decide_eq_false_iff_not, not_lt]
  omega

/-- C9: for the date range "01-01-25:02-01-25" the evening (normal-type)
window runs from Rome local 18:00 on 2024-12-31 to Rome local 18:00 on
2025-01-02 and the on-call window from Rome local 00:00:00 on 2025-01-01 to
Rome local 23:59:59.999999 on 2025-01-02, each endpoint converted to an
absolute UTC timestamp with the zone's offset as of that instant. -/
theorem date_range_windows_rome :
    get_evening_window "01-01-25:02-01-25" =
      some (utcEpochMicrosOfRomeWall 2024 12 31 18 0 0 0,
            utcEpochMicrosOfRomeWall 2025 1 2 18 0 0 0)
    ∧ get_oncall_window "01-01-25:02-01-25" =
      some (utcEpochMicrosOfRomeWall 2025 1 1 0 0 0 0,
            utcEpochMicrosOfRomeWall 2025 1 2 23 59 59 999999) := by
  constructor
  · decide
  · decide

/-- Counterexample to C2 as stated: with the unanchored on-call pattern
"foo", the alarm name "xfoo" matches the oncall AlarmType (search finds
"foo" at position 1) and ALSO matches the normal AlarmType (the negative
lookahead `^(?!foo)` only excludes names starting with "foo"); moreover the
empty name matches neither type, refuting the biconditional a second way. -/
theorem normal_oncall_not_exclusive_cex :
    ((build_alarm_types c2Config "SEND" "prod").map
       (fun a => a.matches_alarm_name "xfoo")) = [true, true]
    ∧ ((build_alarm_types c2Config "SEND" "prod").map
       (fun a => a.matches_alarm_name "")) = [false, false] := by
  constructor
  · decide
  · decide

/-- Helper: searching `^(?!P)` anywhere in a string succeeds exactly when
`P` does not match at position 0 (the anchor restricts the search to
position 0, which is always among the searched positions). -/
lemma search_anchorNegLookahead (p : RegexPattern) (s : String) :
    searchPattern (regexAnchorNegLookahead p) s = !(p.matchAt s 0) := by
  unfold searchPattern regexAnchorNegLookahead
  cases hm : p.matchAt s 0
  · simp only [Bool.not_false, List.any_eq_true]
    exact ⟨0, by simp [List.mem_range], by simp [hm]⟩
  · simp only [Bool.not_true, List.any_eq_false]
    intro i _
    simp [hm]

/-- Helper: the composed normal-pattern source text `"^(?!" + raw + ")"` is
never the empty string. -/
lemma anchorNegLookahead_raw_ne_empty (p : RegexPattern) :
    (regexAnchorNegLookahead p).raw.isEmpty = false := by
  unfold regexAnchorNegLookahead
  by_contra h
  rw [Bool.not_eq_false, String.isEmpty_iff] at h
  have hlen := congrArg String.length h
  rw [String.length_append, String.length_append,
    show ("^(?!" : String).length = 4 from rfl,
    show ((")") : String).length = 1 from rfl,
    show ("" : String).length = 0 from rfl] at hlen
  omega

/-- C2 (amended): whenever an on-call pattern is configured, the normal
AlarmType built for prod matches an alarm name exactly when the name is
non-empty and the on-call pattern does NOT match at the start of the name.
Mutual exclusivity with the oncall AlarmType therefore holds only for
non-empty names on which the on-call pattern can match solely at position 0
(e.g. a start-anchored pattern), not in general. -/
theorem normal_matches_iff_oncall_not_at_start
    (pc : ProductConfig) (product_name alarm_name : String) (oc : OnCallConfiguration)
    (nt : AlarmType) (rest : List AlarmType)
    (hoc : pc.oncall_config = some oc)
    (hbuild : build_alarm_types pc product_name "prod" = nt :: rest) :
    nt.matches_alarm_name alarm_name
      = (!alarm_name.isEmpty && !(oc.pattern.matchAt alarm_name 0)) := by
  unfold build_alarm_types at hbuild
  rw [hoc] at hbuild
  by_cases hch : ((pc.get_slack_channel_id "prod").getD "").isEmpty
  · rw [if_pos hch] at hbuild
    exact absurd hbuild (by simp)
  · rw [if_neg hch] at hbuild
    injection hbuild with hnt hrest
    rw [← hnt]
    unfold AlarmType.matches_alarm_name
    rw [anchorNegLookahead_raw_ne_empty, search_anchorNegLookahead]
    cases he : alarm_name.isEmpty <;> simp [he]

/-- Witness for the amended C2 at the concrete configuration and a name the
on-call pattern matches at the start. -/
theorem normal_matches_iff_oncall_not_at_start_witness :
    ∃ nt rest, build_alarm_types c2Config "SEND" "prod" = nt :: rest
      ∧ nt.matches_alarm_name "foobar"
          = (!("foobar" : String).isEmpty && !((litPattern "foo").matchAt "foobar" 0)) := by
  refine ⟨_, _, rfl, ?_⟩
  exact normal_matches_iff_oncall_not_at_start c2Config "SEND" "foobar"
    { channel_id := "C-ONCALL", pattern := litPattern "foo" } _ _ rfl rfl

/-- Helper: one merge step adds the counter tuples. -/
lemma mergeCounters_mergeStep (a r : AlarmAnalysisResult) :
    mergeCounters (mergeStep a r) = mergeCounters a + mergeCounters r := by
  simp [mergeCounters, mergeStep, Prod.mk_add_mk]

/-- Helper: folding merge steps accumulates the counter sum. -/
lemma mergeCounters_foldl (rs : List AlarmAnalysisResult) :
    ∀ acc : AlarmAnalysisResult,
      mergeCounters (rs.foldl mergeStep acc) = mergeCounters acc + (rs.map mergeCounters).sum := by
  induction rs with
  | nil => intro acc; simp
  | cons r rs ih =>
    intro acc
    rw [List.foldl_cons, ih, mergeCounters_mergeStep, List.map_cons, List.sum_cons, add_assoc]

/-- Helper: the counters of a merged result are the sums of the inputs' counters. -/
lemma mergeCounters_merge (rs : List AlarmAnalysisResult) :
    mergeCounters (merge_analysis_results rs) = (rs.map mergeCounters).sum := by
  unfold merge_analysis_results
  rw [mergeCounters_foldl]
  show (0 : Int × Int × Int × Int × Int) + _ = _
  rw [zero_add]

/-- Helper: the per-type and merge identity for the totals, folded over a
rule-abiding accumulator. -/
lemma merge_identity_foldl (rs : List AlarmAnalysisResult) :
    ∀ acc : AlarmAnalysisResult,
      (∀ r ∈ rs, r.total_alarms = r.analyzable_alarms + r.ignored_alarms) →
      acc.total_alarms = acc.analyzable_alarms + acc.ignored_alarms →
      (rs.foldl mergeStep acc).total_alarms
        = (rs.foldl mergeStep acc).analyzable_alarms + (rs.foldl mergeStep acc).ignored_alarms := by
  induction rs with
  | nil => intro acc _ hacc; simpa using hacc
  | cons r rs ih =>
    intro acc h hacc
    rw [List.foldl_cons]
    refine ih _ (fun x hx => h x (List.mem_cons_of_mem _ hx)) ?_
    have hr := h r (List.mem_cons_self _ _)
    simp only [mergeStep]
    omega

/-- C6: every `AnalysisResult` produced by the per-type analysis satisfies
`total_alarms = analyzable_alarms + ignored_alarms`, and merging any list of
results each satisfying the identity yields a result satisfying it. -/
theorem totals_identity :
    (∀ (messages : List Message) (extract_alarm_info : Message → Option AlarmInfo)
       (alarm_type : AlarmType) (ignore_rules : List IgnoreRule),
       (analyze_alarms messages extract_alarm_info alarm_type ignore_rules).total_alarms
         = (analyze_alarms messages extract_alarm_info alarm_type ignore_rules).analyzable_alarms
           + (analyze_alarms messages extract_alarm_info alarm_type ignore_rules).ignored_alarms)
    ∧ (∀ results : List AlarmAnalysisResult,
       (∀ r ∈ results, r.total_alarms = r.analyzable_alarms + r.ignored_alarms) →
       (merge_analysis_results results).total_alarms
         = (merge_analysis_results results).analyzable_alarms
           + (merge_analysis_results results).ignored_alarms) := by
  constructor
  · intro messages extract_alarm_info alarm_type ignore_rules
    simp only [analyze_alarms]
    omega
  · intro results h
    unfold merge_analysis_results
    exact merge_identity_foldl results {} h (by decide)

/-- C7: merging is permutation-invariant and associative on the five integer
counter fields (total, analyzable, ignored, oncall totals); in particular
`[A, B, C]` and `[C, A, B]` merge to the same counters. -/
theorem merge_counters_comm_assoc :
    (∀ rs1 rs2 : List AlarmAnalysisResult, rs1.Perm rs2 →
       mergeCounters (merge_analysis_results rs1) = mergeCounters (merge_analysis_results rs2))
    ∧ (∀ A B C : AlarmAnalysisResult,
       mergeCounters (merge_analysis_results [A, B, C])
         = mergeCounters (merge_analysis_results [C, A, B]))
    ∧ (∀ A B C : AlarmAnalysisResult,
       mergeCounters (merge_analysis_results [merge_analysis_results [A, B], C])
         = mergeCounters (merge_analysis_results [A, merge_analysis_results [B, C]])) := by
  refine ⟨?_, ?_, ?_⟩
  · intro rs1 rs2 h
    rw [mergeCounters_merge, mergeCounters_merge]
    exact (h.map mergeCounters).sum_eq
  · intro A B C
    rw [mergeCounters_merge, mergeCounters_merge]
    simp only [List.map_cons, List.map_nil, List.sum_cons, List.sum_nil]
    abel
  · intro A B C
    simp only [mergeCounters_merge, List.map_cons, List.map_nil, List.sum_cons, List.sum_nil]
    abel

end Claims

end QaopsAnalyzer
